import Mathlib

/-!
Verification of the provider-gateway core of the multi-provider CLI chat
plugin: stderr substring classification, the persisted circuit breaker
(`loadState` / `saveState` / `isCircuitBreakerOpen` / `recordFailure` /
`recordSuccess` from `src/commands/openai-cli-improved.cjs`), the `runCodex`
gateway step, and the exit-code behaviour of the `main` entry points of
`openai-cli-improved.cjs` and `qwen-cli.cjs`.

Strings are modelled by Lean `String`; JavaScript `String.prototype.includes`,
`toLowerCase` (on the ASCII fragment the cue lists live in) and `trim` are
given executable definitions on the underlying character lists.  Instants
(`Date.now()` values, milliseconds) are modelled by `Int`, so that the
JavaScript subtractions `now - ts`, which may be negative when a persisted
timestamp lies in the future of `now`, keep their meaning.
-/

namespace MPChat

/-- JS `needle` occurs at the start of `hay` (character lists). -/
def begWith : List Char → List Char → Bool
  | [], _ => true
  | _ :: _, [] => false
  | p :: ps, c :: cs => p == c && begWith ps cs

/-- JS `hay.includes(needle)` on character lists: `pat` occurs somewhere in `text`. -/
def hasSub (pat : List Char) : List Char → Bool
  | [] => pat.isEmpty
  | c :: cs => begWith pat (c :: cs) || hasSub pat cs

/-- JS `hay.includes(needle)` on strings. -/
def jsIncludes (hay needle : String) : Bool :=
  hasSub needle.data hay.data

/-- JS `s.toLowerCase()` on the ASCII fragment (the cue lists are ASCII). -/
def toLowerJS (s : String) : String :=
  ⟨s.data.map Char.toLower⟩

/-- `isRateLimitError` of `openai-cli-improved.cjs` (lines 80-89). -/
def isRateLimitError (stderr : String) : Bool :=
  let msg := toLowerJS stderr
  jsIncludes msg "rate limit" ||
  jsIncludes msg "quota" ||
  jsIncludes msg "billing hard limit" ||
  jsIncludes msg "insufficient_quota" ||
  jsIncludes msg "too many requests"

/-- `isAuthError` of `openai-cli-improved.cjs` (lines 91-100). -/
def isAuthError (stderr : String) : Bool :=
  let msg := toLowerJS stderr
  jsIncludes msg "not logged in" ||
  (jsIncludes msg "please run" && jsIncludes msg "codex login") ||
  jsIncludes msg "authentication" ||
  jsIncludes msg "unauthorized" ||
  jsIncludes msg "invalid credentials"

/-- `isServerError` of `openai-cli-improved.cjs` (lines 102-113). -/
def isServerError (stderr : String) : Bool :=
  let msg := toLowerJS stderr
  jsIncludes msg "500" ||
  jsIncludes msg "502" ||
  jsIncludes msg "503" ||
  jsIncludes msg "504" ||
  jsIncludes msg "internal server error" ||
  jsIncludes msg "service unavailable" ||
  jsIncludes msg "gateway timeout"

/-- The rate/quota cue list named by the specification. -/
def rateCues : List String :=
  ["rate limit", "quota", "billing hard limit", "insufficient_quota",
   "too many requests"]

/-- The single-substring authentication cues named by the specification. -/
def authCues : List String :=
  ["not logged in", "authentication", "unauthorized", "invalid credentials"]

/-- Spec-side: the (lowercased) diagnostic text contains a rate/quota cue. -/
def specHasRateCue (s : String) : Bool :=
  rateCues.any (fun c => jsIncludes (toLowerJS s) c)

/-- Spec-side: the (lowercased) diagnostic text contains an authentication cue
(one of the single substrings, or the "please run … codex login" pair). -/
def specHasAuthCue (s : String) : Bool :=
  authCues.any (fun c => jsIncludes (toLowerJS s) c) ||
  (jsIncludes (toLowerJS s) "please run" && jsIncludes (toLowerJS s) "codex login")

/-- `CIRCUIT_BREAKER_THRESHOLD` (line 9). -/
def CIRCUIT_BREAKER_THRESHOLD : Nat := 3

/-- `CIRCUIT_BREAKER_WINDOW` in milliseconds (line 10). -/
def CIRCUIT_BREAKER_WINDOW : Int := 5 * 60 * 1000

/-- `CIRCUIT_BREAKER_COOLDOWN` in milliseconds (line 11). -/
def CIRCUIT_BREAKER_COOLDOWN : Int := 10 * 60 * 1000

/-- The persisted breaker record `{ failures, lastSuccess }`. -/
structure BreakerState where
  failures : List Int
  lastSuccess : Int
deriving Repr, DecidableEq

/-- The three breaker constants, as a record so that statements about the
breaker algorithm can be made for arbitrary threshold/window/cooldown; the
scripts instantiate it with `defaultBreakerConfig`. -/
structure BreakerConfig where
  threshold : Nat
  window : Int
  cooldown : Int
deriving Repr, DecidableEq

/-- The constants hard-coded in `openai-cli-improved.cjs` (lines 9-11). -/
def defaultBreakerConfig : BreakerConfig :=
  { threshold := CIRCUIT_BREAKER_THRESHOLD,
    window := CIRCUIT_BREAKER_WINDOW,
    cooldown := CIRCUIT_BREAKER_COOLDOWN }

/-- `Math.min(...list)` over a nonempty spread (the empty case is unreachable
in the guarded branch; JavaScript would give `Infinity` there). -/
def minModel : List Int → Int
  | [] => 0
  | [x] => x
  | x :: y :: r => min x (minModel (y :: r))

/-- Result of `isCircuitBreakerOpen`: the JS object `{ open, remainingMinutes }`
(`remainingMinutes` is present only on the open branch). -/
structure OpenResult where
  openB : Bool
  remainingMinutes : Option Int
deriving Repr, DecidableEq

/-- `Math.ceil(a / 60000)` for an integral millisecond count `a`
(`Int.ediv` is floor division for the positive divisor). -/
def ceilMinutes (a : Int) : Int :=
  Int.ediv (a + 59999) 60000

/-- `isCircuitBreakerOpen` of `openai-cli-improved.cjs` (lines 36-63), with the
state passed explicitly instead of read from the state file.  The second
component is the state left persisted by the call: the source saves the state
only on the cooldown-expired branch, so every other branch leaves the stored
state untouched. -/
def isCircuitBreakerOpen (cfg : BreakerConfig) (st : BreakerState) (now : Int) :
    OpenResult × BreakerState :=
  let fs := st.failures.filter (fun ts => now - ts < cfg.window)
  if cfg.threshold ≤ fs.length then
    let oldestFailure := minModel fs
    let timeSinceOldest := now - oldestFailure
    if timeSinceOldest < cfg.cooldown then
      ({ openB := true,
         remainingMinutes := some (ceilMinutes (cfg.cooldown - timeSinceOldest)) }, st)
    else
      ({ openB := false, remainingMinutes := none },
       { failures := [], lastSuccess := st.lastSuccess })
  else
    ({ openB := false, remainingMinutes := none }, st)

/-- `recordFailure` (lines 66-70): push the current instant and persist. -/
def recordFailure (st : BreakerState) (now : Int) : BreakerState :=
  { st with failures := st.failures ++ [now] }

/-- `recordSuccess` (lines 73-78): clear failures, stamp `lastSuccess`, persist. -/
def recordSuccess (_st : BreakerState) (now : Int) : BreakerState :=
  { failures := [], lastSuccess := now }

/-- The possible outcomes of reading the breaker state file: the file is
absent, reading it throws, its content fails `JSON.parse`, or it parses to a
persisted breaker record. -/
inductive FileRead where
  | absent
  | readErr
  | badJson
  | good (st : BreakerState)
deriving Repr, DecidableEq

/-- The file read parsed to a state record. -/
def isGoodFile : FileRead → Bool
  | .good _ => true
  | _ => false

/-- Body of the `try` block of `loadState` (lines 14-24): an exception from
`readFileSync` or `JSON.parse` is an `error` value. -/
def loadStateRaw (f : FileRead) (now : Int) : Except String BreakerState :=
  match f with
  | .good st => .ok st
  | .absent => .ok { failures := [], lastSuccess := now }
  | .readErr => .error "read failed"
  | .badJson => .error "parse failed"

/-- `loadState` (lines 14-24): the `catch` arm swallows the exception and a
fresh state `{ failures: [], lastSuccess: Date.now() }` is returned. -/
def loadState (f : FileRead) (now : Int) : BreakerState :=
  match loadStateRaw f now with
  | .ok st => st
  | .error _ => { failures := [], lastSuccess := now }

/-- `saveState` (lines 27-33): a throwing `writeFileSync` is swallowed and the
stored file keeps its previous content; otherwise the file now holds `st`. -/
def saveState (writeOk : Bool) (file : FileRead) (st : BreakerState) : FileRead :=
  if writeOk then .good st else file

/-- The `type` tags produced by the error branch of `runCodex`
(`circuit_breaker` is produced before any invocation and kept separate). -/
inductive CxKind where
  | limit
  | auth
  | server
  | timeout
  | missing
  | unknown
deriving Repr, DecidableEq

/-- The wire value of the `type` field for each kind. -/
def kindWire : CxKind → String
  | .limit => "limit"
  | .auth => "auth"
  | .server => "server_error"
  | .timeout => "timeout"
  | .missing => "missing"
  | .unknown => "error"

/-- JS whitespace test for the ASCII fragment (space, tab, LF, CR, VT, FF). -/
def wsChar (c : Char) : Bool :=
  c == ' ' || c == '\t' || c == '\n' || c == '\r' ||
  c == (Char.ofNat 11) || c == (Char.ofNat 12)

/-- JS `s.trim()` on character lists: drop whitespace from both ends. -/
def trimL (l : List Char) : List Char :=
  ((l.dropWhile wsChar).reverse.dropWhile wsChar).reverse

/-- JS `s.trim()`. -/
def trimJS (s : String) : String :=
  ⟨trimL s.data⟩

/-- The failure object resolved by the error branch of `runCodex`. -/
structure CodexFail where
  kind : CxKind
  retryable : Bool
  message : String
deriving Repr, DecidableEq

/-- `error.code === "ETIMEDOUT" || error.killed` (line 178). -/
def jsTimedOut (code : Option String) (killed : Bool) : Bool :=
  code == some "ETIMEDOUT" || killed

/-- The error branch of the `execFile` callback of `runCodex`
(`openai-cli-improved.cjs` lines 144-205): classify `stderr` / the error
object, record a breaker failure on the recording branches, and resolve the
failure object.  `st` is the persisted breaker state when the callback runs
and `now` the `Date.now()` instant of the `recordFailure` calls; the second
component is the persisted state after the branch. -/
def codexErrorStep (stderrText : String) (code : Option String) (killed : Bool)
    (st : BreakerState) (now : Int) : CodexFail × BreakerState :=
  if isRateLimitError stderrText then
    (⟨.limit, false,
      "Codex/OpenAI rate limit reached. DO NOT RETRY automatically. Wait before manual retry."⟩,
     recordFailure st now)
  else if isAuthError stderrText then
    (⟨.auth, false,
      "Codex CLI authentication missing or invalid. Run `codex login` in your shell."⟩,
     st)
  else if isServerError stderrText then
    (⟨.server, false,
      "OpenAI API server error detected. DO NOT RETRY - likely service outage. Circuit breaker will activate after multiple failures."⟩,
     recordFailure st now)
  else if jsTimedOut code killed then
    (⟨.timeout, false,
      "Request timed out after 5 minutes. DO NOT RETRY automatically."⟩,
     recordFailure st now)
  else if code == some "ENOENT" then
    (⟨.missing, false,
      "The `codex` CLI is not available on PATH. Install with: npm install -g @openai/codex"⟩,
     st)
  else
    (⟨.unknown, false,
      "Codex CLI error. DO NOT RETRY. Stderr:\n" ++ trimJS stderrText⟩,
     recordFailure st now)

/-- The classifier as the specification describes it, as an ordered
first-match rule list over the spec-side cue predicates, in the order the
code actually applies (rate/quota first, then authentication, then server,
then timeout, then missing, then unknown). -/
def specClassify (stderrText : String) (code : Option String) (killed : Bool) : CxKind :=
  if specHasRateCue stderrText then .limit
  else if specHasAuthCue stderrText then .auth
  else if isServerError stderrText then .server
  else if jsTimedOut code killed then .timeout
  else if code == some "ENOENT" then .missing
  else .unknown

/-- The subprocess outcome the `execFile` callback is invoked with. -/
inductive Invocation where
  | failed (stderrText : String) (code : Option String) (killed : Bool)
  | succeeded (stdout : String)
deriving Repr, DecidableEq

/-- The object `runCodex` resolves with, plus the JSON response fields `main`
derives from it (`retryable` is absent on the circuit-breaker and success
branches, mirrored by `none`). -/
structure RunResult where
  ok : Bool
  typeStr : Option String
  retryable : Option Bool
  output : Option String
  message : Option String
deriving Repr, DecidableEq

/-- The message of the circuit-breaker early return (lines 119-123). -/
def circuitMessage (r : Option Int) : String :=
  "Circuit breaker is open due to repeated failures. Please wait " ++
  (match r with
   | some v => toString v
   | none => "undefined") ++
  " minutes before retrying. This prevents overwhelming the API during outages."

/-- `runCodex` (lines 115-227) as a function of the persisted breaker state
`st`, the `Date.now()` instants of the breaker check (`now`) and of the
callback (`later`), and the subprocess outcome `inv` (consulted only when a
subprocess is spawned).  Returns the resolved result, the persisted breaker
state afterwards, and whether a subprocess was spawned. -/
def runCodexModel (st : BreakerState) (now later : Int) (inv : Invocation) :
    RunResult × BreakerState × Bool :=
  let checked := isCircuitBreakerOpen defaultBreakerConfig st now
  if checked.1.openB then
    ({ ok := false, typeStr := some "circuit_breaker", retryable := none,
       output := none, message := some (circuitMessage checked.1.remainingMinutes) },
     checked.2, false)
  else
    match inv with
    | .succeeded stdout =>
        ({ ok := true, typeStr := none, retryable := none,
           output := some (trimJS stdout), message := none },
         recordSuccess checked.2 later, true)
    | .failed stderrText code killed =>
        let stepped := codexErrorStep stderrText code killed checked.2 later
        ({ ok := false, typeStr := some (kindWire stepped.1.kind),
           retryable := some stepped.1.retryable, output := none,
           message := some stepped.1.message },
         stepped.2, true)

/-- `result.retryable || false` as assembled into the failure response by
`main` of `openai-cli-improved.cjs` (line 268). -/
def respRetryable (r : RunResult) : Bool :=
  r.retryable.getD false

/-- The distinguishable stdin/invocation situations `main` of
`openai-cli-improved.cjs` runs through. -/
inductive CliInput where
  | tooLarge
  | badJson
  | noPrompt
  | run (inv : Invocation)
deriving Repr, DecidableEq

/-- `main` of `openai-cli-improved.cjs` (lines 229-282): the process exit code
and the `success` field of the JSON response (`success` is reported only on
the path that prints a response; the early validation exits print no
response object, modelled by `false`). -/
def openaiMain (st : BreakerState) (now later : Int) (inp : CliInput) : Nat × Bool :=
  match inp with
  | .tooLarge => (1, false)
  | .badJson => (1, false)
  | .noPrompt => (1, false)
  | .run inv =>
      let r := runCodexModel st now later inv
      if r.1.ok then (0, true) else (1, false)

/-- The distinguishable stdin/invocation situations `main` of `qwen-cli.cjs`
runs through (it has no input-size guard and no breaker). -/
inductive QwenInput where
  | badJson
  | noPrompt
  | run (ok : Bool)
deriving Repr, DecidableEq

/-- `main` of `qwen-cli.cjs` (lines 93-152): the process exit code and the
`success` field of the printed JSON response.  The invalid-JSON and missing
prompt paths call `process.exit(0)` explicitly, and after `runQwen` the
function prints the response and returns, so the process exits `0` there as
well. -/
def qwenMain (inp : QwenInput) : Nat × Bool :=
  match inp with
  | .badJson => (0, false)
  | .noPrompt => (0, false)
  | .run ok => (0, ok)

/-- Outcome of the `try` block run on a Z.ai HTTP 200/201 response body
(`src/unnamed/part_005` lines 795-810): either `JSON.parse` succeeded and the
text blocks were extracted and joined (with the raw body as `||` fallback),
giving `content`, or `JSON.parse` threw with message `errMsg`.  The JSON
value itself is taken as input, like the state-file content in `FileRead`. -/
inductive ZaiBody where
  | parsed (content : String)
  | parseFail (errMsg : String)
deriving Repr, DecidableEq

/-- The network events the Z.ai `makeRequest` handlers react to: a completed
response with its status code, body-parse outcome and raw body, a request
error, or the request timeout. -/
inductive ZaiEvent where
  | response (statusCode : Nat) (body : ZaiBody) (data : String)
  | connError (errMsg : String)
  | timedOut
deriving Repr, DecidableEq

/-- The object the Z.ai `makeRequest` resolves with (`type` mapped to
`CxKind` by the `kindWire` correspondence; absent fields are `none`). -/
structure ZaiResult where
  ok : Bool
  kind : Option CxKind
  output : Option String
  message : Option String
deriving Repr, DecidableEq

/-- JS `data.substring(0, 500)`. -/
def jsTake500 (s : String) : String :=
  ⟨s.data.take 500⟩

/-- The `res.on("end")`, `req.on("error")` and `req.on("timeout")` handlers
of the Z.ai `makeRequest` (`src/unnamed/part_005` lines 786-859), with the
persisted breaker state passed explicitly: HTTP 200/201 with a parsed body
records a success; a parse failure of such a response resolves an `error`
failure without touching the breaker; 401 resolves `auth` without touching
the breaker; 429, statuses ≥ 500, every other status, connection errors and
timeouts record a failure. -/
def zaiCallbackStep (ev : ZaiEvent) (st : BreakerState) (now : Int) :
    ZaiResult × BreakerState :=
  match ev with
  | .response statusCode body data =>
      if statusCode == 200 || statusCode == 201 then
        match body with
        | .parsed content =>
            ({ ok := true, kind := none, output := some content, message := none },
             recordSuccess st now)
        | .parseFail errMsg =>
            ({ ok := false, kind := some .unknown, output := none,
               message := some ("Failed to parse Z.ai response: " ++ errMsg) },
             st)
      else if statusCode == 401 then
        ({ ok := false, kind := some .auth, output := none,
           message := some "Z.ai authentication failed. Check your API key." },
         st)
      else if statusCode == 429 then
        ({ ok := false, kind := some .limit, output := none,
           message := some "Z.ai rate limit reached. Please wait before retrying." },
         recordFailure st now)
      else if 500 ≤ statusCode then
        ({ ok := false, kind := some .server, output := none,
           message := some ("Z.ai server error: HTTP " ++ toString statusCode ++
             ". Service may be temporarily unavailable.") },
         recordFailure st now)
      else
        ({ ok := false, kind := some .unknown, output := none,
           message := some ("Z.ai API error: HTTP " ++ toString statusCode ++
             ". Response: " ++ jsTake500 data) },
         recordFailure st now)
  | .connError errMsg =>
      ({ ok := false, kind := some .unknown, output := none,
         message := some ("Z.ai connection error: " ++ errMsg) },
       recordFailure st now)
  | .timedOut =>
      ({ ok := false, kind := some .timeout, output := none,
         message := some "Z.ai API request timed out after 2 minutes." },
       recordFailure st now)

/-- The event is a successful-status (200/201) response whose body failed to
parse — the one failure of `makeRequest`'s handlers that does not touch the
breaker besides `auth`. -/
def zaiParseFailed : ZaiEvent → Bool
  | .response sc (.parseFail _) _ => sc == 200 || sc == 201
  | _ => false

/-- `result.type === "timeout" || result.type === "server_error"`, the
response-level `retryable` computed by `main` of the Z.ai script
(`src/unnamed/part_005` line 903). -/
def zaiRetryable (t : String) : Bool :=
  t == "timeout" || t == "server_error"

/-- Spec-side: `m` is the oldest element of `l`. -/
def isOldest (m : Int) (l : List Int) : Prop :=
  m ∈ l ∧ ∀ t ∈ l, m ≤ t

instance (m : Int) (l : List Int) : Decidable (isOldest m l) := by
  unfold isOldest
  exact instDecidableAnd

theorem minModel_mem : ∀ (l : List Int), l ≠ [] → minModel l ∈ l := by
  intro l
  induction l with
  | nil => intro h; exact absurd rfl h
  | cons x r ih =>
    intro _
    cases r with
    | nil => simp [minModel]
    | cons y s =>
      rcases le_total x (minModel (y :: s)) with h | h
      · simp [minModel, min_eq_left h]
      · have := ih (by simp)
        simp only [minModel, min_eq_right h]
        exact List.mem_cons_of_mem x this

theorem minModel_le : ∀ (l : List Int) (t : Int), t ∈ l → minModel l ≤ t := by
  intro l
  induction l with
  | nil => intro t ht; simp at ht
  | cons x r ih =>
    intro t ht
    cases r with
    | nil =>
      simp at ht
      simp [minModel, ht]
    | cons y s =>
      rcases List.mem_cons.1 ht with h | h
      · simp [minModel, h, min_le_left]
      · exact le_trans (by simp [minModel, min_le_right]) (ih t h)

theorem minModel_isOldest (l : List Int) (h : l ≠ []) : isOldest (minModel l) l :=
  ⟨minModel_mem l h, fun t ht => minModel_le l t ht⟩

theorem isOldest_unique {m₁ m₂ : Int} {l : List Int}
    (h₁ : isOldest m₁ l) (h₂ : isOldest m₂ l) : m₁ = m₂ :=
  le_antisymm (h₁.2 m₂ h₂.1) (h₂.2 m₁ h₁.1)

theorem specHasRateCue_eq (s : String) :
    specHasRateCue s = isRateLimitError s := by
  have h : ∀ b₁ b₂ b₃ b₄ b₅ : Bool,
      (b₁ || (b₂ || (b₃ || (b₄ || (b₅ || false))))) = (b₁ || b₂ || b₃ || b₄ || b₅) := by
    decide
  simp only [specHasRateCue, rateCues, List.any_cons, List.any_nil,
    isRateLimitError, h]

theorem specHasAuthCue_eq (s : String) :
    specHasAuthCue s = isAuthError s := by
  have h : ∀ b₁ b₂ b₃ b₄ bp : Bool,
      ((b₁ || (b₂ || (b₃ || (b₄ || false)))) || bp) = (b₁ || bp || b₂ || b₃ || b₄) := by
    decide
  simp only [specHasAuthCue, authCues, List.any_cons, List.any_nil,
    isAuthError, h]

theorem dropWhile_head_not (p : Char → Bool) :
    ∀ (l : List Char) (c : Char) (t : List Char),
      l.dropWhile p = c :: t → p c = false := by
  intro l
  induction l with
  | nil => intro c t h; simp [List.dropWhile] at h
  | cons a l ih =>
    intro c t h
    by_cases hp : p a = true
    · rw [List.dropWhile_cons, if_pos hp] at h
      exact ih c t h
    · rw [List.dropWhile_cons, if_neg hp] at h
      cases h
      exact Bool.not_eq_true _ ▸ eq_false_of_ne_true hp

theorem getLast?_dropWhile (p : Char → Bool) :
    ∀ (l : List Char), l.dropWhile p ≠ [] →
      (l.dropWhile p).getLast? = l.getLast? := by
  intro l
  induction l with
  | nil => intro h; simp [List.dropWhile] at h
  | cons a l ih =>
    intro h
    by_cases hp : p a = true
    · rw [List.dropWhile_cons, if_pos hp] at h ⊢
      have hl : l ≠ [] := by
        intro he; rw [he] at h; simp [List.dropWhile] at h
      rw [ih h]
      cases l with
      | nil => exact absurd rfl hl
      | cons b m => exact (List.getLast?_cons_cons).symm
    · rw [List.dropWhile_cons, if_neg hp]

theorem trimL_decomp (l : List Char) :
    ∃ pre post, l = pre ++ trimL l ++ post ∧
      (∀ c ∈ pre, wsChar c = true) ∧ (∀ c ∈ post, wsChar c = true) := by
  refine ⟨l.takeWhile wsChar,
    ((l.dropWhile wsChar).reverse.takeWhile wsChar).reverse, ?_, ?_, ?_⟩
  · have h1 : l.takeWhile wsChar ++ l.dropWhile wsChar = l :=
      List.takeWhile_append_dropWhile wsChar l
    have h2 : (l.dropWhile wsChar).reverse.takeWhile wsChar ++
        (l.dropWhile wsChar).reverse.dropWhile wsChar = (l.dropWhile wsChar).reverse :=
      List.takeWhile_append_dropWhile wsChar (l.dropWhile wsChar).reverse
    have h3 : l.dropWhile wsChar =
        trimL l ++ ((l.dropWhile wsChar).reverse.takeWhile wsChar).reverse := by
      rw [trimL]
      conv_lhs => rw [← List.reverse_reverse (List.dropWhile wsChar l), ← h2]
      rw [List.reverse_append]
    calc l = l.takeWhile wsChar ++ l.dropWhile wsChar := h1.symm
      _ = l.takeWhile wsChar ++
          (trimL l ++ ((l.dropWhile wsChar).reverse.takeWhile wsChar).reverse) := by
            rw [← h3]
      _ = l.takeWhile wsChar ++ trimL l ++
          ((l.dropWhile wsChar).reverse.takeWhile wsChar).reverse := by
            rw [List.append_assoc]
  · intro c hc
    exact List.mem_takeWhile_imp hc
  · intro c hc
    exact List.mem_takeWhile_imp (List.mem_reverse.1 hc)

theorem trimL_getLast (l : List Char) (c : Char)
    (h : (trimL l).getLast? = some c) : wsChar c = false := by
  rw [trimL, List.getLast?_reverse] at h
  obtain ⟨t, ht⟩ : ∃ t, (l.dropWhile wsChar).reverse.dropWhile wsChar = c :: t := by
    cases he : (l.dropWhile wsChar).reverse.dropWhile wsChar with
    | nil => rw [he] at h; simp at h
    | cons x t =>
      rw [he] at h
      simp at h
      exact ⟨t, by rw [h]⟩
  exact dropWhile_head_not wsChar _ c t ht

theorem trimL_head (l : List Char) (c : Char)
    (h : (trimL l).head? = some c) : wsChar c = false := by
  rw [trimL, List.head?_reverse] at h
  have hne : (l.dropWhile wsChar).reverse.dropWhile wsChar ≠ [] := by
    intro he; rw [he] at h; simp at h
  rw [getLast?_dropWhile wsChar _ hne, List.getLast?_reverse] at h
  obtain ⟨t, ht⟩ : ∃ t, l.dropWhile wsChar = c :: t := by
    cases he : l.dropWhile wsChar with
    | nil =>
      rw [he] at h; simp at h
    | cons x t =>
      rw [he] at h
      simp at h
      exact ⟨t, by rw [h]⟩
  exact dropWhile_head_not wsChar l c t ht

theorem recordFailure_ne (st : BreakerState) (now : Int) :
    recordFailure st now ≠ st := by
  intro h
  have := congrArg (fun t => t.failures.length) h
  simp [recordFailure] at this

theorem ceilMinutes_spec (a : Int) :
    60000 * (ceilMinutes a - 1) < a ∧ a ≤ 60000 * ceilMinutes a := by
  have hdm : 60000 * ((a + 59999).ediv 60000) + (a + 59999).emod 60000 = a + 59999 :=
    Int.ediv_add_emod (a + 59999) 60000
  have hnn : 0 ≤ (a + 59999).emod 60000 := Int.emod_nonneg _ (by norm_num)
  have hlt : (a + 59999).emod 60000 < 60000 := Int.emod_lt_of_pos _ (by norm_num)
  unfold ceilMinutes
  omega

/-- C3 counterexample: the claim says authentication cues are considered
before rate/quota cues and that a start failure maps to `Missing` before any
text matching.  On the code, a stderr text containing both an authentication
cue and a rate cue is classified `limit`, and even with the start-failure
code `ENOENT` a rate cue in the text wins over `missing`. -/
theorem claim_c3_counterexample :
    isAuthError "authentication failed: rate limit" = true ∧
    (codexErrorStep "authentication failed: rate limit" none false ⟨[], 0⟩ 0).1.kind
      = CxKind.limit ∧
    CxKind.limit ≠ CxKind.auth ∧
    (codexErrorStep "quota" (some "ENOENT") false ⟨[], 0⟩ 0).1.kind = CxKind.limit ∧
    CxKind.limit ≠ CxKind.missing := by
  decide

/-- C3 (amended): failure classification is ordered and first-match-wins, in
the order the code applies: rate/quota cues first, then authentication cues,
then server-error cues, then timeout, then the start-failure code `ENOENT`
(mapped to `missing`), then `unknown`.  The classification of the error
branch equals this ordered rule list stated over the spec-side cue
predicates. -/
theorem claim_c3_first_match_order (s : String) (code : Option String) (killed : Bool)
    (st : BreakerState) (now : Int) :
    (codexErrorStep s code killed st now).1.kind = specClassify s code killed := by
  by_cases h1 : isRateLimitError s = true <;>
  by_cases h2 : isAuthError s = true <;>
  by_cases h3 : isServerError s = true <;>
  by_cases h4 : jsTimedOut code killed = true <;>
  by_cases h5 : (code == some "ENOENT") = true <;>
  simp [codexErrorStep, specClassify, specHasRateCue_eq, specHasAuthCue_eq,
    h1, h2, h3, h4, h5]

/-- C4: every diagnostic string whose lowercasing contains one of the
rate/quota cues is classified `limit` (the rate check is the first branch of
the classifier, so nothing can shadow it), with wire tag `"limit"`. -/
theorem claim_c4_rate_cue_is_limit (s : String) (code : Option String) (killed : Bool)
    (st : BreakerState) (now : Int)
    (h : specHasRateCue s = true) :
    (codexErrorStep s code killed st now).1.kind = CxKind.limit ∧
    kindWire (codexErrorStep s code killed st now).1.kind = "limit" := by
  have hr : isRateLimitError s = true := by rw [← specHasRateCue_eq]; exact h
  constructor <;> simp [codexErrorStep, hr, kindWire]

/-- C4 witness: a concrete mixed-case rate-limit diagnostic. -/
theorem claim_c4_witness :
    specHasRateCue "Too Many Requests" = true ∧
    ((codexErrorStep "Too Many Requests" none false ⟨[], 0⟩ 0).1.kind = CxKind.limit ∧
     kindWire (codexErrorStep "Too Many Requests" none false ⟨[], 0⟩ 0).1.kind = "limit") :=
  ⟨by decide,
   claim_c4_rate_cue_is_limit "Too Many Requests" none false ⟨[], 0⟩ 0 (by decide)⟩

/-- C5 counterexample: the Z.ai `makeRequest` resolves the failure
"Failed to parse Z.ai response" — kind `error` (Unknown) — on a JSON-parse
failure of an HTTP 200 response without calling `recordFailure`: the breaker
state is left exactly as it was, while the claim requires an Unknown-kind
failure to append the current instant. -/
theorem claim_c5_counterexample :
    (zaiCallbackStep (ZaiEvent.response 200 (ZaiBody.parseFail "bad") "raw")
        ⟨[], 0⟩ 5).1.kind = some CxKind.unknown ∧
    (zaiCallbackStep (ZaiEvent.response 200 (ZaiBody.parseFail "bad") "raw")
        ⟨[], 0⟩ 5).2 = (⟨[], 0⟩ : BreakerState) ∧
    recordFailure (⟨[], 0⟩ : BreakerState) 5 ≠ (⟨[], 0⟩ : BreakerState) := by
  decide

/-- C5 (amended): in `runCodex`, a breaker failure (appending the current
instant) is recorded exactly when the produced kind is `limit`,
`server_error`, `timeout` or `error` (unknown), and the state is untouched
on the `auth` and `missing` branches.  In the Z.ai `makeRequest` handlers
the same policy holds with one exception: a JSON-parse failure of a
successful (HTTP 200/201) response is an `error`-kind (Unknown) failure
that leaves the breaker untouched, while 429, statuses ≥ 500, other
statuses, connection errors and timeouts record and 401 (`auth`) does not.
Rate-limit and unknown failures are reported with `retryable: false` in
both gateways (`runCodex` sets it literally, the Z.ai `main` computes it as
`type === "timeout" || type === "server_error"`).  Recording is a real
change: `recordFailure` never equals the previous state. -/
theorem claim_c5_breaker_recording (s : String) (code : Option String) (killed : Bool)
    (ev : ZaiEvent) (st stz : BreakerState) (now nowz : Int) :
    ((codexErrorStep s code killed st now).2 =
      (if (codexErrorStep s code killed st now).1.kind = CxKind.auth ∨
          (codexErrorStep s code killed st now).1.kind = CxKind.missing
       then st else recordFailure st now) ∧
     (codexErrorStep s code killed st now).1.retryable = false ∧
     recordFailure st now ≠ st) ∧
    ((zaiCallbackStep ev stz nowz).2 =
      (if (zaiCallbackStep ev stz nowz).1.ok then recordSuccess stz nowz
       else if (zaiCallbackStep ev stz nowz).1.kind = some CxKind.auth ∨
               zaiParseFailed ev = true
       then stz else recordFailure stz nowz)) ∧
    zaiRetryable (kindWire CxKind.limit) = false ∧
    zaiRetryable (kindWire CxKind.unknown) = false := by
  refine ⟨⟨?_, ?_, recordFailure_ne st now⟩, ?_, by decide, by decide⟩
  · by_cases h1 : isRateLimitError s = true <;>
    by_cases h2 : isAuthError s = true <;>
    by_cases h3 : isServerError s = true <;>
    by_cases h4 : jsTimedOut code killed = true <;>
    by_cases h5 : (code == some "ENOENT") = true <;>
    simp [codexErrorStep, h1, h2, h3, h4, h5]
  · by_cases h1 : isRateLimitError s = true <;>
    by_cases h2 : isAuthError s = true <;>
    by_cases h3 : isServerError s = true <;>
    by_cases h4 : jsTimedOut code killed = true <;>
    by_cases h5 : (code == some "ENOENT") = true <;>
    simp [codexErrorStep, h1, h2, h3, h4, h5]
  · cases ev with
    | connError m => simp [zaiCallbackStep, zaiParseFailed]
    | timedOut => simp [zaiCallbackStep, zaiParseFailed]
    | response sc body data =>
      by_cases h1 : (sc == 200 || sc == 201) = true <;>
      by_cases h2 : (sc == 401) = true <;>
      by_cases h3 : (sc == 429) = true <;>
      by_cases h4 : 500 ≤ sc <;>
      cases body <;>
      simp [zaiCallbackStep, zaiParseFailed, h1, h2, h3, h4]

theorem isOpen_true_snd (cfg : BreakerConfig) (st : BreakerState) (now : Int)
    (h : (isCircuitBreakerOpen cfg st now).1.openB = true) :
    (isCircuitBreakerOpen cfg st now).2 = st := by
  by_cases h1 : cfg.threshold ≤
      (st.failures.filter (fun ts => now - ts < cfg.window)).length
  · by_cases h2 : now - minModel (st.failures.filter (fun ts => now - ts < cfg.window))
        < cfg.cooldown
    · simp [isCircuitBreakerOpen, h1, h2]
    · simp [isCircuitBreakerOpen, h1, h2] at h
  · simp [isCircuitBreakerOpen, h1] at h

/-- C6: whenever the breaker is open at the start of a `runCodex` call, the
call resolves with the `circuit_breaker` failure whose message carries the
remaining cooldown in minutes, the response-level `retryable` is `false`
(`result.retryable || false` over the absent field), the persisted breaker
state is untouched, and no subprocess is spawned. -/
theorem claim_c6_circuit_open_short_circuits (st : BreakerState) (now later : Int)
    (inv : Invocation)
    (h : (isCircuitBreakerOpen defaultBreakerConfig st now).1.openB = true) :
    runCodexModel st now later inv =
      ({ ok := false, typeStr := some "circuit_breaker", retryable := none,
         output := none,
         message := some (circuitMessage
           (isCircuitBreakerOpen defaultBreakerConfig st now).1.remainingMinutes) },
       st, false) ∧
    respRetryable (runCodexModel st now later inv).1 = false := by
  have hsnd := isOpen_true_snd defaultBreakerConfig st now h
  have hrun : runCodexModel st now later inv =
      ({ ok := false, typeStr := some "circuit_breaker", retryable := none,
         output := none,
         message := some (circuitMessage
           (isCircuitBreakerOpen defaultBreakerConfig st now).1.remainingMinutes) },
       st, false) := by
    rw [runCodexModel.eq_def]
    simp only [h, if_true]
    rw [hsnd]
  refine ⟨hrun, ?_⟩
  rw [hrun]
  rfl

/-- C6 witness: three failures within the window, checked 100 seconds after
the oldest, leave the breaker open with 9 minutes remaining. -/
theorem claim_c6_witness :
    (isCircuitBreakerOpen defaultBreakerConfig ⟨[0, 1, 2], 0⟩ 100000).1.openB = true ∧
    (runCodexModel ⟨[0, 1, 2], 0⟩ 100000 100001 (Invocation.succeeded "x") =
      ({ ok := false, typeStr := some "circuit_breaker", retryable := none,
         output := none,
         message := some (circuitMessage
           (isCircuitBreakerOpen defaultBreakerConfig ⟨[0, 1, 2], 0⟩ 100000).1.remainingMinutes) },
       ⟨[0, 1, 2], 0⟩, false) ∧
     respRetryable (runCodexModel ⟨[0, 1, 2], 0⟩ 100000 100001
       (Invocation.succeeded "x")).1 = false) :=
  ⟨by decide,
   claim_c6_circuit_open_short_circuits ⟨[0, 1, 2], 0⟩ 100000 100001
     (Invocation.succeeded "x") (by decide)⟩

/-- C9: on the success path (breaker closed, subprocess exited cleanly), the
result's output is exactly `stdout.trim()` — the original stdout is the
trimmed output surrounded by purely-whitespace margins, and the trimmed
output neither starts nor ends with whitespace — and the persisted breaker
state is the one written by `recordSuccess`. -/
theorem claim_c9_success_roundtrip (st : BreakerState) (now later : Int) (stdout : String)
    (h : (isCircuitBreakerOpen defaultBreakerConfig st now).1.openB = false) :
    runCodexModel st now later (Invocation.succeeded stdout) =
      ({ ok := true, typeStr := none, retryable := none,
         output := some (trimJS stdout), message := none },
       recordSuccess (isCircuitBreakerOpen defaultBreakerConfig st now).2 later, true) ∧
    (∃ pre post, stdout.data = pre ++ (trimJS stdout).data ++ post ∧
       (∀ c ∈ pre, wsChar c = true) ∧ (∀ c ∈ post, wsChar c = true)) ∧
    (∀ c, (trimJS stdout).data.head? = some c → wsChar c = false) ∧
    (∀ c, (trimJS stdout).data.getLast? = some c → wsChar c = false) := by
  refine ⟨?_, ?_, ?_, ?_⟩
  · rw [runCodexModel.eq_def]
    simp only [h, Bool.false_eq_true, if_false]
  · simpa [trimJS] using trimL_decomp stdout.data
  · intro c hc
    exact trimL_head stdout.data c hc
  · intro c hc
    exact trimL_getLast stdout.data c hc

/-- C9 witness: a concrete stdout with margins on both sides. -/
theorem claim_c9_witness :
    (isCircuitBreakerOpen defaultBreakerConfig ⟨[], 0⟩ 0).1.openB = false ∧
    (runCodexModel ⟨[], 0⟩ 0 42 (Invocation.succeeded "  hi there \n") =
      ({ ok := true, typeStr := none, retryable := none,
         output := some (trimJS "  hi there \n"), message := none },
       recordSuccess (isCircuitBreakerOpen defaultBreakerConfig ⟨[], 0⟩ 0).2 42, true) ∧
     (∃ pre post, ("  hi there \n" : String).data =
        pre ++ (trimJS "  hi there \n").data ++ post ∧
        (∀ c ∈ pre, wsChar c = true) ∧ (∀ c ∈ post, wsChar c = true)) ∧
     (∀ c, (trimJS "  hi there \n").data.head? = some c → wsChar c = false) ∧
     (∀ c, (trimJS "  hi there \n").data.getLast? = some c → wsChar c = false)) :=
  ⟨by decide,
   claim_c9_success_roundtrip ⟨[], 0⟩ 0 42 "  hi there \n" (by decide)⟩

/-- C2 counterexample: on invalid JSON input, `main` of `qwen-cli.cjs` prints
a response with `success: false` and then calls `process.exit(0)`: a failure
path that exits with code `0`, contradicting the claim that every failure
path exits nonzero. -/
theorem claim_c2_counterexample :
    (qwenMain QwenInput.badJson).2 = false ∧ (qwenMain QwenInput.badJson).1 = 0 := by
  decide

/-- C2 (amended): `main` of `openai-cli-improved.cjs` exits `0` exactly when
the invocation succeeded (invalid JSON, oversized input, missing prompt and
every provider failure exit `1`), but `main` of `qwen-cli.cjs` always exits
`0` — on invalid JSON, missing prompt and provider failure alike, the failure
is signalled only by `success: false` in the printed JSON. -/
theorem claim_c2_exit_codes (st : BreakerState) (now later : Int)
    (inp : CliInput) (qi : QwenInput) :
    ((openaiMain st now later inp).1 = 0 ↔ (openaiMain st now later inp).2 = true) ∧
    (qwenMain qi).1 = 0 := by
  constructor
  · cases inp with
    | tooLarge => simp [openaiMain]
    | badJson => simp [openaiMain]
    | noPrompt => simp [openaiMain]
    | run inv =>
      simp only [openaiMain]
      split <;> simp
  · cases qi <;> simp [qwenMain]

/-- C8: `recordSuccess` replaces the failure list by the empty list and the
last-success instant by the current one, whatever the prior state (hence
after any prior operation sequence), and an immediately following `isOpen`
with the default constants reports the breaker closed. -/
theorem claim_c8_recordSuccess_resets (st : BreakerState) (t now : Int) :
    recordSuccess st t = { failures := [], lastSuccess := t } ∧
    (isCircuitBreakerOpen defaultBreakerConfig (recordSuccess st t) now).1.openB = false := by
  refine ⟨rfl, ?_⟩
  simp [recordSuccess, isCircuitBreakerOpen, defaultBreakerConfig,
    CIRCUIT_BREAKER_THRESHOLD]

/-- C10: when the state file is absent, unreadable or holds invalid JSON,
`loadState` returns the fresh state with an empty failure list, on which the
breaker reads closed; a failing `saveState` write is swallowed and the file
keeps its previous content.  Both functions are total on every file outcome
(the `try`/`catch` absorbs the raw `Except` error of `loadStateRaw`), so no
filesystem or parse exception reaches the caller. -/
theorem claim_c10_loadState_fails_open (f : FileRead) (now later : Int)
    (file : FileRead) (st : BreakerState)
    (h : isGoodFile f = false) :
    loadState f now = { failures := [], lastSuccess := now } ∧
    (isCircuitBreakerOpen defaultBreakerConfig (loadState f now) later).1.openB = false ∧
    saveState false file st = file := by
  have hl : loadState f now = { failures := [], lastSuccess := now } := by
    cases f with
    | good s => simp [isGoodFile] at h
    | absent => rfl
    | readErr => rfl
    | badJson => rfl
  refine ⟨hl, ?_, rfl⟩
  rw [hl]
  simp [isCircuitBreakerOpen, defaultBreakerConfig, CIRCUIT_BREAKER_THRESHOLD]

/-- C10 witness: a concrete invalid-JSON state file. -/
theorem claim_c10_witness :
    isGoodFile FileRead.badJson = false ∧
    (loadState FileRead.badJson 5 = { failures := [], lastSuccess := 5 } ∧
     (isCircuitBreakerOpen defaultBreakerConfig (loadState FileRead.badJson 5) 7).1.openB
       = false ∧
     saveState false FileRead.absent ⟨[3], 0⟩ = FileRead.absent) :=
  ⟨by decide,
   claim_c10_loadState_fails_open FileRead.badJson 5 7 FileRead.absent ⟨[3], 0⟩ (by decide)⟩

/-- C7: for any breaker constants, whenever at least `threshold` failures lie
within the window of `now` but the oldest of those filtered failures is older
than the cooldown, `isOpen` returns `open = false` and persists an emptied
failure list (self-healing).  With the default constants this precondition is
unsatisfiable — every filtered timestamp is within the 5-minute window and so
within the 10-minute cooldown — which is why the statement is made for the
parametric breaker. -/
theorem claim_c7_selfheal_clears (cfg : BreakerConfig) (st : BreakerState) (now : Int)
    (hcount : cfg.threshold ≤
      (st.failures.filter (fun ts => now - ts < cfg.window)).length)
    (hold : ∃ m, isOldest m (st.failures.filter (fun ts => now - ts < cfg.window)) ∧
      cfg.cooldown ≤ now - m) :
    (isCircuitBreakerOpen cfg st now).1.openB = false ∧
    (isCircuitBreakerOpen cfg st now).2.failures = [] := by
  obtain ⟨m, hm, hc⟩ := hold
  have hne : st.failures.filter (fun ts => now - ts < cfg.window) ≠ [] := by
    intro he
    rw [he] at hm
    exact absurd hm.1 (List.not_mem_nil m)
  have hmin : m = minModel (st.failures.filter (fun ts => now - ts < cfg.window)) :=
    isOldest_unique hm (minModel_isOldest _ hne)
  have hnot : ¬ (now - minModel (st.failures.filter (fun ts => now - ts < cfg.window))
      < cfg.cooldown) := by
    rw [← hmin]
    omega
  constructor <;> simp [isCircuitBreakerOpen, hcount, hnot]

/-- C7 witness: threshold 3, window 5 ms, cooldown 2 ms, failures at 6, 7, 8
checked at instant 10: all three are within the window, the oldest is 4 ms
old — beyond the cooldown — so the breaker reports closed and clears the
stored list. -/
theorem claim_c7_witness :
    ((3 : Nat) ≤ ((⟨[6, 7, 8], 0⟩ : BreakerState).failures.filter
        (fun ts => (10 : Int) - ts < (⟨3, 5, 2⟩ : BreakerConfig).window)).length) ∧
    (∃ m, isOldest m ((⟨[6, 7, 8], 0⟩ : BreakerState).failures.filter
        (fun ts => (10 : Int) - ts < (⟨3, 5, 2⟩ : BreakerConfig).window)) ∧
      (⟨3, 5, 2⟩ : BreakerConfig).cooldown ≤ 10 - m) ∧
    ((isCircuitBreakerOpen ⟨3, 5, 2⟩ ⟨[6, 7, 8], 0⟩ 10).1.openB = false ∧
     (isCircuitBreakerOpen ⟨3, 5, 2⟩ ⟨[6, 7, 8], 0⟩ 10).2.failures = []) :=
  ⟨by decide, ⟨6, by decide, by decide⟩,
   claim_c7_selfheal_clears ⟨3, 5, 2⟩ ⟨[6, 7, 8], 0⟩ 10 (by decide)
     ⟨6, by decide, by decide⟩⟩

/-- C1 counterexample: the claim bounds the reported remaining cooldown by
the cooldown (10 minutes) for every breaker state and instant.  A persisted
state whose failure timestamps lie in the future of `now` (possible after a
wall-clock rollback, since the state file is reloaded as-is) passes the
window filter (`now - ts` is negative) and the cooldown test, and the
breaker reports open with 20 remaining minutes — more than the cooldown. -/
theorem claim_c1_counterexample :
    (isCircuitBreakerOpen defaultBreakerConfig
        ⟨[700000, 700000, 700000], 0⟩ 100000).1 =
      ⟨true, some 20⟩ ∧
    ¬ ((20 : Int) ≤ 10) := by
  decide

/-- C1 (amended): with the default constants, `isOpen` reports open exactly
when at least 3 stored timestamps satisfy the window filter
(`now - ts < window`) and the oldest filtered timestamp satisfies
`now - oldest < cooldown`; in that case the reported remaining minutes `r`
are the cooldown minus the age of the oldest, rounded up to whole minutes
(characterised by `60000·(r−1) < cooldown − (now − oldest) ≤ 60000·r`), and
`r` is at most the 10-minute cooldown whenever the oldest filtered timestamp
does not lie in the future of `now`. -/
theorem claim_c1_open_characterisation (st : BreakerState) (now : Int) :
    ((isCircuitBreakerOpen defaultBreakerConfig st now).1.openB = true ↔
      (CIRCUIT_BREAKER_THRESHOLD ≤
         st.failures.countP (fun ts => now - ts < CIRCUIT_BREAKER_WINDOW) ∧
       ∃ m, isOldest m (st.failures.filter (fun ts => now - ts < CIRCUIT_BREAKER_WINDOW)) ∧
         now - m < CIRCUIT_BREAKER_COOLDOWN)) ∧
    (∀ m r, isOldest m (st.failures.filter (fun ts => now - ts < CIRCUIT_BREAKER_WINDOW)) →
       (isCircuitBreakerOpen defaultBreakerConfig st now).1.remainingMinutes = some r →
       (60000 * (r - 1) < CIRCUIT_BREAKER_COOLDOWN - (now - m) ∧
        CIRCUIT_BREAKER_COOLDOWN - (now - m) ≤ 60000 * r ∧
        (0 ≤ now - m → r ≤ 10))) := by
  have hcount : (st.failures.filter (fun ts => now - ts < CIRCUIT_BREAKER_WINDOW)).length
      = st.failures.countP (fun ts => now - ts < CIRCUIT_BREAKER_WINDOW) := by
    simp [List.countP_eq_length_filter]
  by_cases h1 : CIRCUIT_BREAKER_THRESHOLD ≤
      (st.failures.filter (fun ts => now - ts < CIRCUIT_BREAKER_WINDOW)).length
  · have hne : st.failures.filter (fun ts => now - ts < CIRCUIT_BREAKER_WINDOW) ≠ [] := by
      intro he
      rw [he] at h1
      simp [CIRCUIT_BREAKER_THRESHOLD] at h1
    have hold := minModel_isOldest _ hne
    by_cases h2 : now - minModel (st.failures.filter
        (fun ts => now - ts < CIRCUIT_BREAKER_WINDOW)) < CIRCUIT_BREAKER_COOLDOWN
    · constructor
      · simp only [isCircuitBreakerOpen, defaultBreakerConfig, h1, h2, if_true, if_pos]
        simp only [true_iff]
        exact ⟨hcount ▸ h1, minModel _, hold, h2⟩
      · intro m r hm hr
        have hmeq : m = minModel (st.failures.filter
            (fun ts => now - ts < CIRCUIT_BREAKER_WINDOW)) :=
          isOldest_unique hm hold
        have hrval : r = ceilMinutes (CIRCUIT_BREAKER_COOLDOWN -
            (now - minModel (st.failures.filter
              (fun ts => now - ts < CIRCUIT_BREAKER_WINDOW)))) := by
          simp only [isCircuitBreakerOpen, defaultBreakerConfig, h1, h2,
            if_true, if_pos] at hr
          simpa using hr.symm
        have hspec := ceilMinutes_spec (CIRCUIT_BREAKER_COOLDOWN -
          (now - minModel (st.failures.filter
            (fun ts => now - ts < CIRCUIT_BREAKER_WINDOW))))
        rw [← hmeq] at hrval hspec
        rw [← hrval] at hspec
        refine ⟨hspec.1, hspec.2, ?_⟩
        intro hpast
        have hcool : CIRCUIT_BREAKER_COOLDOWN = 600000 := by decide
        omega
    · constructor
      · simp only [isCircuitBreakerOpen, defaultBreakerConfig, h1, h2, if_pos, if_neg,
          not_false_iff]
        simp only [Bool.false_eq_true, false_iff]
        intro ⟨_, m, hm, hmc⟩
        exact h2 (isOldest_unique hm hold ▸ hmc)
      · intro m r hm hr
        simp only [isCircuitBreakerOpen, defaultBreakerConfig, h1, h2, if_pos, if_neg,
          not_false_iff] at hr
        simp at hr
  · constructor
    · simp only [isCircuitBreakerOpen, defaultBreakerConfig, if_neg h1]
      simp only [Bool.false_eq_true, false_iff]
      intro ⟨hcnt, _⟩
      exact h1 (hcount ▸ hcnt)
    · intro m r hm hr
      simp only [isCircuitBreakerOpen, defaultBreakerConfig, if_neg h1] at hr
      simp at hr

/-- C1 witness: failures at 0, 60 and 120 seconds, checked at 200 seconds:
the breaker is open with 7 remaining minutes, and 7 is within the bracket
`360000 < 400000 ≤ 420000` and at most 10. -/
theorem claim_c1_witness :
    isOldest 0 ((⟨[0, 60000, 120000], 0⟩ : BreakerState).failures.filter
      (fun ts => (200000 : Int) - ts < CIRCUIT_BREAKER_WINDOW)) ∧
    (isCircuitBreakerOpen defaultBreakerConfig
        ⟨[0, 60000, 120000], 0⟩ 200000).1.remainingMinutes = some 7 ∧
    (60000 * ((7 : Int) - 1) < CIRCUIT_BREAKER_COOLDOWN - (200000 - 0) ∧
     CIRCUIT_BREAKER_COOLDOWN - (200000 - 0) ≤ 60000 * 7 ∧
     (0 ≤ (200000 : Int) - 0 → (7 : Int) ≤ 10)) :=
  ⟨by decide, by decide,
   (claim_c1_open_characterisation ⟨[0, 60000, 120000], 0⟩ 200000).2 0 7
     (by decide) (by decide)⟩

end MPChat
